import Mathlib

/-!
Shallow embedding of the Cobot-Perfilometro prototype
(src/main.py, src/main2.py, src/main.3.py).

Profiles are modelled as lists of rationals (the spec's "ordered sequence
of finite real numbers"); numpy vector operations become list operations.
The authoritative implementation is src/main.3.py, the complete variant the
spec was written from; src/main2.py shares the same comparator (minus the
length check) and cycle skeleton, src/main.py is an earlier draft.
-/

/-- Result type of SistemaInspeccion.comparar_perfiles (src/main.3.py,
lines 170-192).  The Python function can return None (master profile
absent), return a bool (True = defect), or raise (np.max of an empty
array raises ValueError). -/
inductive CmpResult where
  | pyNone : CmpResult
  | pyBool : Bool → CmpResult
  | pyRaise : CmpResult
deriving DecidableEq, Repr

/-- np.mean over a list of rationals: sum divided by length
(division by zero yields 0 in ℚ; the Python nan case only arises for the
empty list, where the subsequent np.max raises anyway, modelled below). -/
def np_mean (xs : List ℚ) : ℚ := xs.sum / xs.length

/-- Mean-centering of a profile: perfil - np.mean(perfil)
(src/main.3.py lines 181-182). -/
def centrar (xs : List ℚ) : List ℚ := xs.map (fun x => x - np_mean xs)

/-- np.max over a list: none on the empty list (numpy raises ValueError
there), otherwise the maximum of all elements. -/
def np_max : List ℚ → Option ℚ
  | [] => none
  | x :: xs => some (xs.foldl max x)

/-- diferencias = np.abs(perfil_actual_norm - perfil_maestro_norm)
(src/main.3.py line 184), as an elementwise list operation. -/
def diferencias (actual maestro : List ℚ) : List ℚ :=
  List.zipWith (fun a b => |a - b|) (centrar actual) (centrar maestro)

/-- SistemaInspeccion.comparar_perfiles of src/main.3.py (lines 170-192):
returns None when no master profile is loaded; True (defect) when the
lengths differ; otherwise centers both profiles, takes the maximum
absolute pointwise difference and compares it strictly against the
tolerance threshold. -/
def comparar_perfiles (perfil_maestro : Option (List ℚ)) (umbral : ℚ)
    (perfil_actual : List ℚ) : CmpResult :=
  match perfil_maestro with
  | none => .pyNone
  | some maestro =>
    if maestro.length ≠ perfil_actual.length then
      .pyBool true
    else
      match np_max (diferencias perfil_actual maestro) with
      | none => .pyRaise
      | some desviacion_maxima => .pyBool (decide (umbral < desviacion_maxima))

example : comparar_perfiles (some [0, 0, 0]) (1/2) [1/10, -1/10, 1/5] =
    .pyBool false := by
  norm_num [comparar_perfiles, np_max, diferencias, centrar, np_mean, abs, max_def]

example : comparar_perfiles (some [0, 0, 0]) (1/2) [0, 0, 10] =
    .pyBool true := by
  norm_num [comparar_perfiles, np_max, diferencias, centrar, np_mean, abs, max_def]

example : comparar_perfiles (some [0, 0]) (1/2) [1, 2, 3] = .pyBool true := by
  norm_num [comparar_perfiles]

example : comparar_perfiles none (1/2) [1, 2, 3] = .pyNone := by
  norm_num [comparar_perfiles]

/-- Outcome of cobot_socket.recv(1024) at src/main.3.py line 207: a list of
bytes (the empty list means the peer closed the connection), a
socket.timeout exception, or any other exception. -/
inductive RecvOutcome where
  | bytes : List Nat → RecvOutcome
  | timeout : RecvOutcome
  | excepcion : RecvOutcome
deriving DecidableEq, Repr

/-- Observable actions of one iteration of the inspection cycle, in order:
sleeps, reconnection attempts per link, and commands sent (or failing to
send) over the cobot socket. -/
inductive Evento where
  | dormir : Nat → Evento
  | reconexion_sensor : Evento
  | reconexion_cobot : Evento
  | comando_enviado : String → Evento
  | fallo_envio : String → Evento
deriving DecidableEq, Repr

/-- State of SistemaInspeccion that the cycle can observe or change:
the loaded master profile, the tolerance threshold, and per-link counters
of how many connection attempts have been made (a bump means the link
object was replaced, i.e. its connection state was disturbed). -/
structure SistemaState where
  perfil_maestro : Option (List ℚ)
  umbral : ℚ
  conexiones_sensor : Nat
  conexiones_cobot : Nat
deriving DecidableEq, Repr

/-- Environment inputs that one cycle iteration consumes: what recv
returned, what adquirir_perfil returned (None on any acquisition failure,
src/main.3.py lines 63-114 always catch and return None), whether sendall
succeeds, and whether the connect attempts of conectar succeed. -/
structure CicloEntorno where
  recv : RecvOutcome
  perfil_adquirido : Option (List ℚ)
  envio_ok : Bool
  sensor_ok : Bool
  cobot_ok : Bool
deriving DecidableEq, Repr

/-- SistemaInspeccion.conectar (src/main.3.py lines 151-168): always builds
a fresh CognexPerfilometro (sensor connection attempt); if that fails it
returns early, otherwise it also opens a fresh cobot socket.  Returns the
new state, the emitted events, and the boolean result. -/
def conectar (st : SistemaState) (sensor_ok cobot_ok : Bool) :
    SistemaState × List Evento × Bool :=
  let st1 := { st with conexiones_sensor := st.conexiones_sensor + 1 }
  if !sensor_ok then
    (st1, [.reconexion_sensor], false)
  else
    let st2 := { st1 with conexiones_cobot := st1.conexiones_cobot + 1 }
    (st2, [.reconexion_sensor, .reconexion_cobot], cobot_ok)

/-- SistemaInspeccion.enviar_comando_cobot (src/main.3.py lines 194-200):
sendall inside a try/except socket.error -- a send failure is caught and
logged, nothing is re-raised and no state changes. -/
def enviar_comando_cobot (envio_ok : Bool) (comando : String) : List Evento :=
  if envio_ok then [.comando_enviado comando] else [.fallo_envio comando]

/-- Generic exception handler of the cycle (src/main.3.py lines 229-233):
log, sleep(10), then self.conectar() reconnecting both links. -/
def manejador_excepcion (st : SistemaState) (ent : CicloEntorno) :
    SistemaState × List Evento :=
  let r := conectar st ent.sensor_ok ent.cobot_ok
  (r.1, .dormir 10 :: r.2.1)

/-- One iteration of SistemaInspeccion.ejecutar_ciclo_inspeccion
(src/main.3.py lines 202-233).  The branch on empty recv data (lines
208-212) calls self.conectar_cobot(), a method that is NOT defined
anywhere on SistemaInspeccion, so Python raises AttributeError after the
sleep(5); that exception is caught by the except Exception handler at line
229, which sleeps 10 more seconds and reconnects BOTH links via
self.conectar(). -/
def ciclo_iteracion (st : SistemaState) (ent : CicloEntorno) :
    SistemaState × List Evento :=
  match ent.recv with
  | .timeout => (st, [])
  | .excepcion => manejador_excepcion st ent
  | .bytes data =>
    if data.isEmpty then
      let r := manejador_excepcion st ent
      (r.1, .dormir 5 :: r.2)
    else
      match ent.perfil_adquirido with
      | none => (st, [])
      | some perfil =>
        match comparar_perfiles st.perfil_maestro st.umbral perfil with
        | .pyRaise => manejador_excepcion st ent
        | .pyBool true => (st, enviar_comando_cobot ent.envio_ok "PIEZA_DEFECTUOSA\n")
        | .pyBool false => (st, enviar_comando_cobot ent.envio_ok "PIEZA_BUENA\n")
        | .pyNone => (st, enviar_comando_cobot ent.envio_ok "PIEZA_BUENA\n")

/-- Outcome of running the __main__ block of src/main.3.py (lines 245-263):
the process exit status code and whether sistema.conectar() was ever
invoked. -/
structure ResultadoArranque where
  codigo_salida : Nat
  conexion_intentada : Bool
deriving DecidableEq, Repr

/-- Outcome of np.loadtxt on the master profile file at startup
(src/main.3.py line 144): the file parses to a profile, the file is
missing (np.loadtxt raises FileNotFoundError, an IOError), or the file
exists but is unparseable (np.loadtxt raises ValueError). -/
inductive CargaMaestro where
  | ok : List ℚ → CargaMaestro
  | archivo_ausente : CargaMaestro
  | archivo_invalido : CargaMaestro
deriving DecidableEq, Repr

/-- SistemaInspeccion.cargar_perfil_maestro (src/main.3.py lines 141-149):
np.loadtxt inside a try/except that catches ONLY IOError.  A missing file
raises FileNotFoundError, an IOError: it is caught and None is returned.
An unparseable file raises ValueError, which is NOT caught and propagates
out of the method (modelled as .error). -/
def cargar_perfil_maestro : CargaMaestro → Except Unit (Option (List ℚ))
  | .ok perfil => .ok (some perfil)
  | .archivo_ausente => .ok none
  | .archivo_invalido => .error ()

/-- The __main__ block of src/main.3.py (lines 245-263), driven by
cargar_perfil_maestro (invoked from the SistemaInspeccion constructor at
line 246, before any connection code).  If cargar_perfil_maestro raises
(unparseable file), the ValueError propagates out of __main__, which has
no handler, and the interpreter terminates with the uncaught-exception
status code 1 -- before sistema.conectar() is reached.  If it returns
None (missing file), the script logs critical and calls the bare builtin
exit(), which raises SystemExit(None) and terminates with status code 0,
also before sistema.conectar().  Otherwise conectar() is attempted; on
success the cycle runs until KeyboardInterrupt, which is caught (line
256), connections are released in the finally block, and the script falls
off the end: status code 0; on failure the script logs critical and ends
normally: status code 0. -/
def flujo_principal (carga : CargaMaestro) (conexion_ok : Bool) :
    ResultadoArranque :=
  match cargar_perfil_maestro carga with
  | .error _ => ⟨1, false⟩
  | .ok none => ⟨0, false⟩
  | .ok (some _) =>
    if conexion_ok then ⟨0, true⟩
    else ⟨0, true⟩

/-- Sum of a profile after adding a constant to every sample. -/
theorem sum_map_add_const (xs : List ℚ) (c : ℚ) :
    (xs.map (fun x => x + c)).sum = xs.sum + xs.length * c := by
  induction xs with
  | nil => simp
  | cons a l ih =>
    simp [ih]
    ring

/-- Mean-centering removes a constant offset added to every sample. -/
theorem centrar_map_add (xs : List ℚ) (c : ℚ) :
    centrar (xs.map (fun x => x + c)) = centrar xs := by
  rcases eq_or_ne xs [] with rfl | h
  · simp [centrar]
  · have hlen : (xs.length : ℚ) ≠ 0 := by
      exact_mod_cast fun h0 => h (List.length_eq_zero.mp h0)
    have hmean : np_mean (xs.map (fun x => x + c)) = np_mean xs + c := by
      rw [np_mean, np_mean, sum_map_add_const, List.length_map]
      field_simp
      ring
    unfold centrar
    rw [hmean, List.map_map]
    congr 1
    funext x
    simp [Function.comp]

/-- Elementwise absolute difference of a list with itself is all zeros. -/
theorem zipWith_abs_sub_self (xs : List ℚ) :
    List.zipWith (fun a b => |a - b|) xs xs = List.replicate xs.length 0 := by
  induction xs with
  | nil => rfl
  | cons a l ih => simp [ih, List.replicate_succ]

/-- Folding max over a list of zeros starting from zero gives zero. -/
theorem foldl_max_replicate_zero (n : Nat) :
    (List.replicate n (0 : ℚ)).foldl max 0 = 0 := by
  induction n with
  | zero => rfl
  | succ k ih => simp [List.replicate_succ, ih]

/-- np_max of a non-empty all-zero list is zero. -/
theorem np_max_replicate_zero (n : Nat) (hn : n ≠ 0) :
    np_max (List.replicate n (0 : ℚ)) = some 0 := by
  cases n with
  | zero => exact absurd rfl hn
  | succ k => simp [List.replicate_succ, np_max, foldl_max_replicate_zero]

/-- C1: for every pair of profiles whose lengths differ, and every
tolerance, comparar_perfiles returns the defect verdict (Python True),
regardless of the sample values. -/
theorem C1_longitud_distinta_defectuosa (maestro actual : List ℚ) (umbral : ℚ)
    (h : maestro.length ≠ actual.length) :
    comparar_perfiles (some maestro) umbral actual = .pyBool true := by
  simp [comparar_perfiles, h]

/-- Witness for C1 at maestro = [0], actual = [0, 0], umbral = 1/2. -/
theorem C1_longitud_distinta_defectuosa_testigo :
    ([0] : List ℚ).length ≠ ([0, 0] : List ℚ).length ∧
      comparar_perfiles (some [0]) (1/2) [0, 0] = .pyBool true :=
  ⟨by decide, C1_longitud_distinta_defectuosa [0] [0, 0] (1/2) (by decide)⟩

/-- C2: when the cobot signal arrives but profile acquisition fails
(adquirir_perfil returns None), the cycle iteration sends no command at
all, performs no reconnection, and leaves the system state unchanged. -/
theorem C2_adquisicion_fallida_sin_veredicto (st : SistemaState)
    (ent : CicloEntorno) (data : List Nat) (hrecv : ent.recv = .bytes data)
    (hdata : data ≠ []) (hperfil : ent.perfil_adquirido = none) :
    ciclo_iteracion st ent = (st, []) := by
  simp [ciclo_iteracion, hrecv, hperfil, hdata]

/-- Witness for C2 at a concrete state and environment. -/
theorem C2_adquisicion_fallida_sin_veredicto_testigo :
    ciclo_iteracion ⟨some [0], 1/2, 0, 0⟩ ⟨.bytes [1], none, true, true, true⟩ =
      (⟨some [0], 1/2, 0, 0⟩, []) :=
  C2_adquisicion_fallida_sin_veredicto ⟨some [0], 1/2, 0, 0⟩
    ⟨.bytes [1], none, true, true, true⟩ [1] rfl (by decide) rfl

/-- C3 (code evaluated at the failing input): when recv returns zero bytes,
the cycle sleeps 5 s, the undefined method conectar_cobot raises
AttributeError, the generic handler sleeps 10 s more and reconnects BOTH
links: the sensor connection counter is bumped, so the sensor link's
connection state is NOT left unchanged, contrary to the claim and to the
source comment "Intenta reconectar solo el cobot". -/
theorem C3_cierre_par_reconecta_ambos_enlaces :
    ciclo_iteracion ⟨some [0], 1/2, 0, 0⟩ ⟨.bytes [], some [0], true, true, true⟩ =
      (⟨some [0], 1/2, 1, 1⟩,
        [.dormir 5, .dormir 10, .reconexion_sensor, .reconexion_cobot]) := by
  rfl

/-- C4 counterexample: a cycle in which the verdict send fails
(sendall raises socket.error) at a concrete input.  The failure is caught
inside enviar_comando_cobot: the iteration ends with only a fallo_envio
event, no reconnection of either link and no delay, and the state
(including both connection counters) is unchanged -- the claimed recovery
with reconnection of both links does not happen. -/
theorem C4_fallo_envio_sin_recuperacion_contraejemplo :
    ciclo_iteracion ⟨some [0, 0, 0], 1/2, 0, 0⟩
        ⟨.bytes [1], some [0, 0, 0], false, true, true⟩ =
      (⟨some [0, 0, 0], 1/2, 0, 0⟩, [.fallo_envio "PIEZA_BUENA\n"]) := by
  have hcomp : comparar_perfiles (some [0, 0, 0]) (2⁻¹ : ℚ) [0, 0, 0] =
      .pyBool false := by
    norm_num [comparar_perfiles, np_max, diferencias, centrar, np_mean, abs,
      max_def]
  simp [ciclo_iteracion, hcomp, enviar_comando_cobot]

/-- C4 amended: whenever transmitting a verdict to the cobot fails, the
controller merely logs the socket error inside enviar_comando_cobot and
proceeds to the next cycle; it reconnects neither link, adds no delay, and
the state is unchanged. -/
theorem C4_fallo_envio_ignorado (st : SistemaState) (ent : CicloEntorno)
    (data : List Nat) (perfil : List ℚ) (hrecv : ent.recv = .bytes data)
    (hdata : data ≠ []) (hperfil : ent.perfil_adquirido = some perfil)
    (hsana : comparar_perfiles st.perfil_maestro st.umbral perfil ≠ .pyRaise)
    (henvio : ent.envio_ok = false) :
    ∃ comando, ciclo_iteracion st ent = (st, [.fallo_envio comando]) := by
  cases hc : comparar_perfiles st.perfil_maestro st.umbral perfil with
  | pyRaise => exact absurd hc hsana
  | pyNone =>
    exact ⟨"PIEZA_BUENA\n",
      by simp [ciclo_iteracion, hrecv, hdata, hperfil, hc, henvio,
        enviar_comando_cobot]⟩
  | pyBool b =>
    cases b with
    | true =>
      exact ⟨"PIEZA_DEFECTUOSA\n",
        by simp [ciclo_iteracion, hrecv, hdata, hperfil, hc, henvio,
          enviar_comando_cobot]⟩
    | false =>
      exact ⟨"PIEZA_BUENA\n",
        by simp [ciclo_iteracion, hrecv, hdata, hperfil, hc, henvio,
          enviar_comando_cobot]⟩

/-- Witness for the amended C4 at a concrete state and environment. -/
theorem C4_fallo_envio_ignorado_testigo :
    ∃ comando,
      ciclo_iteracion ⟨some [0], 1/2, 0, 0⟩
          ⟨.bytes [1], some [0, 0], false, true, true⟩ =
        (⟨some [0], 1/2, 0, 0⟩, [.fallo_envio comando]) :=
  C4_fallo_envio_ignorado ⟨some [0], 1/2, 0, 0⟩
    ⟨.bytes [1], some [0, 0], false, true, true⟩ [1] [0, 0] rfl (by decide) rfl
    (by simp [comparar_perfiles]) rfl

/-- C5: for equal-length profiles, adding the same constant to every
sample of the current profile, or to every sample of the master profile,
does not change the verdict of comparar_perfiles (mean-centering removes
the offset). -/
theorem C5_invariancia_desplazamiento (maestro actual : List ℚ)
    (umbral c : ℚ) (h : maestro.length = actual.length) :
    comparar_perfiles (some maestro) umbral (actual.map (fun x => x + c)) =
        comparar_perfiles (some maestro) umbral actual ∧
      comparar_perfiles (some (maestro.map (fun x => x + c))) umbral actual =
        comparar_perfiles (some maestro) umbral actual := by
  constructor <;>
    simp [comparar_perfiles, diferencias, centrar_map_add, List.length_map]

/-- Witness for C5 at maestro = [0, 0], actual = [1, 2], c = 5. -/
theorem C5_invariancia_desplazamiento_testigo :
    comparar_perfiles (some [0, 0]) (1/2) (([1, 2] : List ℚ).map (fun x => x + 5)) =
        comparar_perfiles (some [0, 0]) (1/2) [1, 2] ∧
      comparar_perfiles (some (([0, 0] : List ℚ).map (fun x => x + 5))) (1/2) [1, 2] =
        comparar_perfiles (some [0, 0]) (1/2) [1, 2] :=
  C5_invariancia_desplazamiento [0, 0] [1, 2] (1/2) 5 rfl

/-- C6: for equal-length non-empty profiles (the master is non-empty by
the spec's MasterProfile invariant), comparar_perfiles returns the defect
verdict exactly when the maximum absolute pointwise difference of the
mean-centered profiles strictly exceeds the tolerance, and returns the
good verdict exactly when it does not; in particular a deviation exactly
equal to the tolerance yields the good verdict. -/
theorem C6_defectuosa_sii_desviacion_supera_umbral (maestro actual : List ℚ)
    (umbral : ℚ) (h : maestro.length = actual.length) (hne : actual ≠ []) :
    ∃ d, np_max (diferencias actual maestro) = some d ∧
      (comparar_perfiles (some maestro) umbral actual = .pyBool true ↔
        umbral < d) ∧
      (comparar_perfiles (some maestro) umbral actual = .pyBool false ↔
        d ≤ umbral) ∧
      (d = umbral →
        comparar_perfiles (some maestro) umbral actual = .pyBool false) := by
  obtain ⟨d, hd⟩ : ∃ d, np_max (diferencias actual maestro) = some d := by
    obtain ⟨a, as, rfl⟩ := List.exists_cons_of_ne_nil hne
    have hm : maestro ≠ [] := by
      intro hm0
      rw [hm0] at h
      simp at h
    obtain ⟨b, bs, rfl⟩ := List.exists_cons_of_ne_nil hm
    exact ⟨_, rfl⟩
  have hcomp : comparar_perfiles (some maestro) umbral actual =
      .pyBool (decide (umbral < d)) := by
    simp [comparar_perfiles, h, hd]
  refine ⟨d, hd, ?_, ?_, ?_⟩
  · rw [hcomp]
    simp
  · rw [hcomp]
    simp [not_lt]
  · intro hdu
    rw [hcomp]
    simp [hdu]

/-- Witness for C6 at maestro = [0, 1], actual = [0, 0], umbral = 1. -/
theorem C6_defectuosa_sii_desviacion_supera_umbral_testigo :
    ∃ d, np_max (diferencias [0, 0] [0, 1]) = some d ∧
      (comparar_perfiles (some [0, 1]) 1 [0, 0] = .pyBool true ↔ 1 < d) ∧
      (comparar_perfiles (some [0, 1]) 1 [0, 0] = .pyBool false ↔ d ≤ 1) ∧
      (d = 1 → comparar_perfiles (some [0, 1]) 1 [0, 0] = .pyBool false) :=
  C6_defectuosa_sii_desviacion_supera_umbral [0, 1] [0, 0] 1 rfl (by decide)

/-- C7: when the current profile centers to the same sequence as the
non-empty master (in particular when they are equal sample-for-sample) and
the tolerance is non-negative, comparar_perfiles returns the good
verdict. -/
theorem C7_perfiles_iguales_buena (maestro actual : List ℚ) (umbral : ℚ)
    (hc : centrar actual = centrar maestro) (hne : maestro ≠ [])
    (hu : 0 ≤ umbral) :
    comparar_perfiles (some maestro) umbral actual = .pyBool false := by
  have hlen : maestro.length = actual.length := by
    have hl := congrArg List.length hc
    simp only [centrar, List.length_map] at hl
    exact hl.symm
  have hn : maestro.length ≠ 0 := fun h0 => hne (List.length_eq_zero.mp h0)
  have hdif : diferencias actual maestro = List.replicate maestro.length 0 := by
    rw [diferencias, hc, zipWith_abs_sub_self]
    simp [centrar]
  have hmax : np_max (diferencias actual maestro) = some 0 := by
    rw [hdif]
    exact np_max_replicate_zero _ hn
  have hno : ¬ umbral < 0 := not_lt.mpr hu
  simp [comparar_perfiles, hlen, hmax, hno]

/-- Witness for C7 at maestro = actual = [1, 2], umbral = 0. -/
theorem C7_perfiles_iguales_buena_testigo :
    comparar_perfiles (some [1, 2]) 0 [1, 2] = .pyBool false :=
  C7_perfiles_iguales_buena [1, 2] [1, 2] 0 rfl (by decide) le_rfl

/-- C8: on master = [0, 0, 0], current = [0.1, -0.1, 0.2], tolerance 0.5,
the comparator centers the current profile to [1/30, -1/6, 2/15]
(approximately [0.0333, -0.1667, 0.1333]), obtains maximum deviation 1/6
(approximately 0.1667), and returns the good verdict. -/
theorem C8_escenario_concreto :
    centrar [1/10, -1/10, 1/5] = [1/30, -1/6, 2/15] ∧
      np_max (diferencias [1/10, -1/10, 1/5] [0, 0, 0]) = some (1/6) ∧
      |(1/30 : ℚ) - 333/10000| < 1/10000 ∧
      |(-1/6 : ℚ) - (-1667/10000)| < 1/10000 ∧
      |(2/15 : ℚ) - 1333/10000| < 1/10000 ∧
      |(1/6 : ℚ) - 1667/10000| < 1/10000 ∧
      comparar_perfiles (some [0, 0, 0]) (1/2) [1/10, -1/10, 1/5] =
        .pyBool false := by
  norm_num [comparar_perfiles, np_max, diferencias, centrar, np_mean, abs,
    max_def]

/-- C9 counterexample: with the master profile file missing at startup,
cargar_perfil_maestro catches the FileNotFoundError and returns None, and
the __main__ block of src/main.3.py calls the bare exit(): the process
exit status is 0, not non-zero as claimed (the connection is indeed never
attempted). -/
theorem C9_salida_cero_sin_maestro_contraejemplo :
    (flujo_principal .archivo_ausente true).codigo_salida = 0 ∧
      (flujo_principal .archivo_ausente true).conexion_intentada = false := by
  constructor <;> rfl

/-- C9 amended: an unparseable master profile file terminates the process
before any connection attempt with a non-zero exit code (the ValueError
from np.loadtxt is not caught by the except IOError and reaches the
interpreter, status 1); a missing master profile file also terminates the
process before any connection attempt, but with exit code 0 (bare exit()
raises SystemExit(None)); a clean shutdown via operator cancellation exits
with code 0. -/
theorem C9_codigos_salida_arranque (conexion_ok : Bool) :
    flujo_principal .archivo_invalido conexion_ok = ⟨1, false⟩ ∧
      (flujo_principal .archivo_invalido conexion_ok).codigo_salida ≠ 0 ∧
      flujo_principal .archivo_ausente conexion_ok = ⟨0, false⟩ ∧
      ∀ perfil : List ℚ,
        (flujo_principal (.ok perfil) conexion_ok).codigo_salida = 0 := by
  refine ⟨rfl, by simp [flujo_principal, cargar_perfil_maestro], rfl, ?_⟩
  intro perfil
  cases conexion_ok <;> rfl

/-- C10: when the stored master profile is absent, comparar_perfiles
returns Python None (a third value outside the two boolean verdicts), and
the cycle's truthiness test on that None then transmits the GOOD token
PIEZA_BUENA to the cobot even though no comparison was performed. -/
theorem C10_maestro_ausente_envia_pieza_buena (st : SistemaState)
    (ent : CicloEntorno) (data : List Nat) (perfil : List ℚ)
    (hm : st.perfil_maestro = none) (hrecv : ent.recv = .bytes data)
    (hdata : data ≠ []) (hperfil : ent.perfil_adquirido = some perfil)
    (henvio : ent.envio_ok = true) :
    comparar_perfiles st.perfil_maestro st.umbral perfil = .pyNone ∧
      ciclo_iteracion st ent = (st, [.comando_enviado "PIEZA_BUENA\n"]) := by
  have hc : comparar_perfiles st.perfil_maestro st.umbral perfil = .pyNone := by
    simp [comparar_perfiles, hm]
  exact ⟨hc, by simp [ciclo_iteracion, hrecv, hdata, hperfil, hc, henvio,
    enviar_comando_cobot]⟩

/-- Witness for C10 at a concrete state and environment. -/
theorem C10_maestro_ausente_envia_pieza_buena_testigo :
    comparar_perfiles (none : Option (List ℚ)) (1/2) [3, 4] = .pyNone ∧
      ciclo_iteracion ⟨none, 1/2, 0, 0⟩ ⟨.bytes [7], some [3, 4], true, true, true⟩ =
        (⟨none, 1/2, 0, 0⟩, [.comando_enviado "PIEZA_BUENA\n"]) :=
  C10_maestro_ausente_envia_pieza_buena ⟨none, 1/2, 0, 0⟩
    ⟨.bytes [7], some [3, 4], true, true, true⟩ [7] [3, 4] rfl rfl (by decide)
    rfl rfl
